import Mathlib

/-!
Shallow embedding of the reaction-ladder Discord bot (`src/python.py`).

The bot promotes messages into a ladder channel once their count of a
configured reaction emoji reaches a threshold, keeps one promoted entry per
original message in `config.promoted` (a JSON-persisted dict keyed by
`str(message.id)`), and renders two leaderboards.

Modelling conventions:
* Python dicts are association lists in insertion order (`dget` / `dset`
  mirror `d[k]` reads and `d[k] = v` writes: an existing key is updated in
  place, a new key is appended at the end, exactly as CPython dicts keep
  insertion order).
* Discord API effects are explicit parameters: `channelOk` models
  `guild.get_channel(config.ladder_channel_id)` returning a channel rather
  than `None`; `fetchOk` models `ladder_ch.fetch_message` succeeding rather
  than raising `discord.NotFound`; `sentId` is the id of the message a
  `ladder_ch.send` call would return.  `config.save()` calls and
  `ladder_ch.send` calls are counted in the returned `Outcome`.
* Python ints are `Int`; message-creation timestamps (`float` in Python) are
  modelled as `Int`, which preserves every comparison the code performs.
* `list.sort` / `sorted` in Python are stable sorts by a lexicographic key;
  they are modelled by the stable insertion sort `py_sort`, which agrees
  with any stable sort for the same boolean preorder.
-/

namespace LadderBot

/-- Python dict read `d.get(k)` / `d[k]` on an insertion-ordered dict. -/
def dget {κ α : Type} [BEq κ] (l : List (κ × α)) (k : κ) : Option α :=
  (l.find? (fun p => p.1 == k)).map (fun p => p.2)

/-- Python dict write `d[k] = v`: update in place if the key exists,
otherwise append at the end (insertion order). -/
def dset {κ α : Type} [BEq κ] (l : List (κ × α)) (k : κ) (v : α) : List (κ × α) :=
  if l.any (fun p => p.1 == k) then
    l.map (fun p => if p.1 == k then (k, v) else p)
  else
    l ++ [(k, v)]

/-- Number of stored pairs carrying the key `k` (1 for a genuine dict). -/
def dcount {κ α : Type} [BEq κ] (l : List (κ × α)) (k : κ) : Nat :=
  l.countP (fun p => p.1 == k)

/-- One value of `config.promoted` (`src/python.py` lines 102-112 / 124-134):
the per-message record written by `post_or_update`.  `author_id` is an
`Option` because `ladder_top_joueur` reads it with `data.get("author_id")`,
which yields `None` when the field is absent; every record written by the
code itself carries `some`. -/
structure PromotedEntry where
  ladder_msg_id : Nat
  author_id : Option Int
  author_name : String
  author_avatar : String
  content : String
  url : String
  timestamp : Int
  count : Int
  channel_id : Nat
  deriving DecidableEq, Repr

/-- `LadderConfig` dataclass (`src/python.py` lines 10-20). -/
structure LadderConfig where
  ladder_channel_id : Option Nat
  emoji : String
  threshold : Int
  promoted : List (String × PromotedEntry)
  admin_role_id : Option Nat
  deriving DecidableEq, Repr

/-- The slice of a `discord.Message` the bot reads: ids, author snapshot,
content, permalink, creation timestamp, channel, and the reaction list as
`(str(emoji), count)` pairs in order. -/
structure Message where
  id : Nat
  author_id : Int
  author_name : String
  author_avatar : String
  content : String
  jump_url : String
  created_at_ts : Int
  channel_id : Nat
  reactions : List (String × Int)
  deriving DecidableEq, Repr

/-- `count_reactions` (`src/python.py` lines 69-73): the count of the first
reaction whose emoji string equals `config.emoji`, else 0. -/
def count_reactions (cfg : LadderConfig) (msg : Message) : Int :=
  match msg.reactions.find? (fun r => r.1 == cfg.emoji) with
  | some r => r.2
  | none => 0

/-- Which control path an event handler / `post_or_update` call took. -/
inductive Action where
  | skipped
  | noPost
  | noChannel
  | edited
  | recreated
  | created
  deriving DecidableEq, Repr

/-- Result of one handler run: the new config, how many destination messages
were sent (`ladder_ch.send` calls), whether `config.save()` ran, and the
path taken. -/
structure Outcome where
  cfg : LadderConfig
  sends : Nat
  saved : Bool
  action : Action
  deriving DecidableEq, Repr

/-- The record `post_or_update` writes on the create and recreate paths
(`src/python.py` lines 102-112 and 124-134). -/
def freshEntry (msg : Message) (count : Int) (sentId : Nat) : PromotedEntry :=
  { ladder_msg_id := sentId
    author_id := some msg.author_id
    author_name := msg.author_name
    author_avatar := msg.author_avatar
    content := msg.content
    url := msg.jump_url
    timestamp := msg.created_at_ts
    count := count
    channel_id := msg.channel_id }

/-- `post_or_update` (`src/python.py` lines 87-135).  `channelOk` models the
ladder channel resolving; `fetchOk` models `fetch_message(ladder_msg_id)`
succeeding (its `False` case is the `discord.NotFound` handler); `sentId`
is the id of the newly sent destination message where one is sent. -/
def post_or_update (cfg : LadderConfig) (channelOk : Bool) (fetchOk : Bool)
    (msg : Message) (count : Int) (sentId : Nat) : Outcome :=
  if !channelOk then
    { cfg := cfg, sends := 0, saved := false, action := .noChannel }
  else
    let key := toString msg.id
    match dget cfg.promoted key with
    | some entry =>
      if fetchOk then
        let entry2 := { entry with
          count := count
          author_id := some msg.author_id
          author_name := msg.author_name
          author_avatar := msg.author_avatar
          content := msg.content }
        { cfg := { cfg with promoted := dset cfg.promoted key entry2 }
          sends := 0, saved := true, action := .edited }
      else
        { cfg := { cfg with promoted := dset cfg.promoted key (freshEntry msg count sentId) }
          sends := 1, saved := true, action := .recreated }
    | none =>
      { cfg := { cfg with promoted := dset cfg.promoted key (freshEntry msg count sentId) }
        sends := 1, saved := true, action := .created }

/-- The `bot.user and payload.user_id == bot.user.id` guard of
`on_raw_reaction_add` (line 141): true only when the bot is logged in and
the reacting user is the bot itself. -/
def is_bot_user (botUserId : Option Nat) (payloadUserId : Nat) : Bool :=
  match botUserId with
  | some b => payloadUserId == b
  | none => false

/-- `on_raw_reaction_add` (`src/python.py` lines 139-154).  `botUserId` is
`bot.user` (its id when logged in), `guildOk` models `bot.get_guild`
returning a guild. -/
def on_raw_reaction_add (cfg : LadderConfig) (botUserId : Option Nat)
    (payloadUserId : Nat) (payloadEmoji : String) (guildOk : Bool)
    (msg : Message) (channelOk : Bool) (fetchOk : Bool) (sentId : Nat) : Outcome :=
  if is_bot_user botUserId payloadUserId then
    { cfg := cfg, sends := 0, saved := false, action := .skipped }
  else if payloadEmoji != cfg.emoji then
    { cfg := cfg, sends := 0, saved := false, action := .skipped }
  else if !guildOk then
    { cfg := cfg, sends := 0, saved := false, action := .skipped }
  else
    let count := count_reactions cfg msg
    if cfg.threshold ≤ count then
      post_or_update cfg channelOk fetchOk msg count sentId
    else
      { cfg := cfg, sends := 0, saved := false, action := .noPost }

/-- `on_raw_reaction_remove` (`src/python.py` lines 156-169): no bot-user
guard; calls `post_or_update` only when the message already has an entry,
whatever the current count. -/
def on_raw_reaction_remove (cfg : LadderConfig) (payloadEmoji : String)
    (guildOk : Bool) (msg : Message) (channelOk : Bool) (fetchOk : Bool)
    (sentId : Nat) : Outcome :=
  if payloadEmoji != cfg.emoji then
    { cfg := cfg, sends := 0, saved := false, action := .skipped }
  else if !guildOk then
    { cfg := cfg, sends := 0, saved := false, action := .skipped }
  else if (dget cfg.promoted (toString msg.id)).isSome then
    post_or_update cfg channelOk fetchOk msg (count_reactions cfg msg) sentId
  else
    { cfg := cfg, sends := 0, saved := false, action := .noPost }

/-- The caller data the permission code reads: `guild_permissions.manage_guild`,
`hasattr(user, "roles")`, and the ids of the roles the caller holds. -/
structure UserCtx where
  manage_guild : Bool
  has_roles : Bool
  roles : List Nat
  deriving DecidableEq, Repr

/-- `require_admin` predicate (`src/python.py` lines 44-55): server admins
always pass; otherwise the configured role id must be truthy (non-`None`
and nonzero), the user object must expose roles, and the caller must hold
the configured role; otherwise `CheckFailure` is raised. -/
def require_admin_check (cfg : LadderConfig) (u : UserCtx) : Bool :=
  if u.manage_guild then
    true
  else
    match cfg.admin_role_id with
    | some rid => (rid != 0) && u.has_roles && u.roles.any (fun r => r == rid)
    | none => false

/-- Reply class of a settings command: `denied` is the `CheckFailure`
handler message (`src/python.py` lines 58-65), `needManageGuild` the
in-body rejection of `ladder_set_admin_role` (line 179), `ok` a success
confirmation. -/
inductive CmdResult where
  | denied
  | needManageGuild
  | ok
  deriving DecidableEq, Repr

/-- Result of one settings command. -/
structure CmdOutcome where
  cfg : LadderConfig
  result : CmdResult
  saved : Bool
  deriving DecidableEq, Repr

/-- `ladder_set_admin_role` (`src/python.py` lines 173-182): guarded by
`require_admin`, and additionally requires `manage_guild` inside the body
before mutating. -/
def ladder_set_admin_role (cfg : LadderConfig) (u : UserCtx) (roleId : Nat) : CmdOutcome :=
  if !(require_admin_check cfg u) then
    { cfg := cfg, result := .denied, saved := false }
  else if !u.manage_guild then
    { cfg := cfg, result := .needManageGuild, saved := false }
  else
    { cfg := { cfg with admin_role_id := some roleId }, result := .ok, saved := true }

/-- `ladder_set_channel` (`src/python.py` lines 184-189). -/
def ladder_set_channel (cfg : LadderConfig) (u : UserCtx) (channelId : Nat) : CmdOutcome :=
  if !(require_admin_check cfg u) then
    { cfg := cfg, result := .denied, saved := false }
  else
    { cfg := { cfg with ladder_channel_id := some channelId }, result := .ok, saved := true }

/-- `ladder_set_threshold` (`src/python.py` lines 191-196):
`config.threshold = max(1, int(value))`. -/
def ladder_set_threshold (cfg : LadderConfig) (u : UserCtx) (value : Int) : CmdOutcome :=
  if !(require_admin_check cfg u) then
    { cfg := cfg, result := .denied, saved := false }
  else
    { cfg := { cfg with threshold := max 1 value }, result := .ok, saved := true }

/-- `ladder_set_emoji` (`src/python.py` lines 198-203). -/
def ladder_set_emoji (cfg : LadderConfig) (u : UserCtx) (emoji : String) : CmdOutcome :=
  if !(require_admin_check cfg u) then
    { cfg := cfg, result := .denied, saved := false }
  else
    { cfg := { cfg with emoji := emoji }, result := .ok, saved := true }

/-- Stable insertion of `x` into `l`: `x` is placed before the first element
it is `le`-below-or-equal, so equal elements keep their original order. -/
def stableInsert {α : Type} (le : α → α → Bool) (x : α) : List α → List α
  | [] => [x]
  | y :: ys => if le x y then x :: y :: ys else y :: stableInsert le x ys

/-- Stable sort by the boolean preorder `le`; extensionally equal to Python
`sorted` / `list.sort` (Timsort, also stable) for the same key order. -/
def py_sort {α : Type} (le : α → α → Bool) (l : List α) : List α :=
  l.foldr (stableInsert le) []

/-- Python slice `l[:n]`: first `n` elements when `n ≥ 0`, all but the last
`|n|` elements when `n < 0` (`max(0, len(l)+n)`; `Nat` subtraction clamps). -/
def pySliceTo {α : Type} (l : List α) (n : Int) : List α :=
  l.take (if n < 0 then l.length - n.natAbs else n.toNat)

/-- One element of the `entries` list built by `ladder_top`
(`src/python.py` lines 225-228): `(msg_id, int(count), float(timestamp), data)`. -/
structure TopEntry where
  msg_id : String
  count : Int
  timestamp : Int
  data : PromotedEntry
  deriving DecidableEq, Repr

/-- The sort key of `ladder_top` (line 229): lexicographic comparison of
`(-count, timestamp)`, expressed directly on the counts. -/
def topKeyLe (a b : TopEntry) : Bool :=
  decide (b.count < a.count) ||
    (decide (a.count = b.count) && decide (a.timestamp ≤ b.timestamp))

/-- Python `s[:n]` on a string: the first `n` code points. -/
def py_truncate (s : String) (n : Nat) : String :=
  String.mk (s.data.take n)

/-- The content string `ladder_top` displays (line 241):
`(data.get("content") or "*—*").strip()` — the placeholder replaces an
empty (falsy) content, then whitespace is stripped from both ends. -/
def display_content (e : PromotedEntry) : String :=
  (if e.content == "" then "*—*" else e.content).trim

/-- The `field_value` string of one `ladder_top` embed field (line 244):
content truncated to 200 code points, an ellipsis when longer, and the
permalink line. -/
def field_value (e : PromotedEntry) : String :=
  let content := display_content e
  "> " ++ py_truncate content 200 ++
    (if 200 < content.length then "…" else "") ++
    "\n[🔗 Lien vers le message](" ++ e.url ++ ")"

/-- The `field_name` string of one `ladder_top` embed field (line 243). -/
def field_name (cfg : LadderConfig) (rank : Nat) (e : TopEntry) : String :=
  "#" ++ toString rank ++ " — " ++ cfg.emoji ++ " **" ++ toString e.count ++
    "** — par **" ++ e.data.author_name ++ "**"

/-- The embed `ladder_top` sends. -/
structure TopEmbed where
  title : String
  thumbnail : Option String
  entries : List TopEntry
  fields : List (String × String)
  deriving DecidableEq, Repr

/-- Reply of `ladder_top`: the "nothing promoted" message or the embed. -/
inductive TopResult where
  | nothingPromoted
  | board (e : TopEmbed)
  deriving DecidableEq, Repr

/-- The fully sorted entries list of `ladder_top` before `[:limit]`
(lines 225-229). -/
def sorted_entries (cfg : LadderConfig) : List TopEntry :=
  py_sort topKeyLe
    (cfg.promoted.map (fun p =>
      { msg_id := p.1, count := p.2.count, timestamp := p.2.timestamp, data := p.2 }))

/-- `ladder_top` (`src/python.py` lines 221-247).  The Python parameter
default is `limit = 10`.  The thumbnail is set only when the first entry
has a truthy (non-empty) avatar. -/
def ladder_top (cfg : LadderConfig) (limit : Int) : TopResult :=
  if cfg.promoted.isEmpty then
    .nothingPromoted
  else
    let entries := pySliceTo (sorted_entries cfg) limit
    .board
      { title := "🏆 Top " ++ toString limit ++ " messages les plus " ++ cfg.emoji
        thumbnail :=
          match entries with
          | [] => none
          | e :: _ => if e.data.author_avatar == "" then none else some e.data.author_avatar
        entries := entries
        fields := entries.enum.map (fun p => (field_name cfg (p.1 + 1) p.2, field_value p.2.data)) }

/-- Grouping key of `ladder_top_joueur` (line 263): the numeric author id
when present, otherwise the `"name::" + author_name` fallback string.
(The Python `str.isdigit` arm handles string-typed ids in hand-edited JSON;
ids are numeric in this model, so it has no separate image here.) -/
inductive AuthorKey where
  | byId (id : Int)
  | byName (name : String)
  deriving DecidableEq, Repr

/-- The author key of one promoted entry. -/
def author_key (e : PromotedEntry) : AuthorKey :=
  match e.author_id with
  | some i => .byId i
  | none => .byName ("name::" ++ e.author_name)

/-- One value of the `by_author` accumulator dict (lines 264-274). -/
structure AuthorAgg where
  points : Int
  msgs : Nat
  author_name : String
  author_avatar : String
  first_ts : Int
  best_single : Int
  deriving DecidableEq, Repr

/-- The `setdefault` initial record for an author (lines 264-267). -/
def initAgg (e : PromotedEntry) : AuthorAgg :=
  { points := 0, msgs := 0, author_name := e.author_name
    author_avatar := e.author_avatar, first_ts := e.timestamp, best_single := 0 }

/-- The in-place accumulation applied after `setdefault` (lines 268-274):
the avatar is replaced only by a truthy (non-empty) one. -/
def updAgg (a : AuthorAgg) (e : PromotedEntry) : AuthorAgg :=
  { points := a.points + e.count
    msgs := a.msgs + 1
    author_name := e.author_name
    author_avatar := if e.author_avatar == "" then a.author_avatar else e.author_avatar
    first_ts := min a.first_ts e.timestamp
    best_single := max a.best_single e.count }

/-- One iteration of the `for _msg_id, data in config.promoted.items()`
loop of `ladder_top_joueur`. -/
def authorStep (m : List (AuthorKey × AuthorAgg)) (e : PromotedEntry) :
    List (AuthorKey × AuthorAgg) :=
  let k := author_key e
  dset m k (updAgg ((dget m k).getD (initAgg e)) e)

/-- The `by_author` dict after the whole loop (lines 255-274). -/
def by_author (promoted : List (String × PromotedEntry)) :
    List (AuthorKey × AuthorAgg) :=
  promoted.foldl (fun m p => authorStep m p.2) []

/-- The sort key of `ladder_top_joueur` (line 278): lexicographic comparison
of `(-points, -best_single, first_ts)`. -/
def authorKeyLe (a b : AuthorKey × AuthorAgg) : Bool :=
  decide (b.2.points < a.2.points) ||
    (decide (a.2.points = b.2.points) &&
      (decide (b.2.best_single < a.2.best_single) ||
        (decide (a.2.best_single = b.2.best_single) &&
          decide (a.2.first_ts ≤ b.2.first_ts))))

/-- The embed `ladder_top_joueur` sends; `leaderboard` is the sorted,
truncated `by_author.items()` list its fields are rendered from. -/
structure AuthorEmbed where
  title : String
  thumbnail : Option String
  leaderboard : List (AuthorKey × AuthorAgg)
  deriving DecidableEq, Repr

/-- Reply of `ladder_top_joueur`. -/
inductive AuthorResult where
  | nothingPromoted
  | board (e : AuthorEmbed)
  deriving DecidableEq, Repr

/-- `ladder_top_joueur` (`src/python.py` lines 251-301).  The Python
parameter default is `limit = 10`. -/
def ladder_top_joueur (cfg : LadderConfig) (limit : Int) : AuthorResult :=
  if cfg.promoted.isEmpty then
    .nothingPromoted
  else
    let leaderboard := pySliceTo (py_sort authorKeyLe (by_author cfg.promoted)) limit
    .board
      { title := "🏆 Top " ++ toString limit ++ " joueurs — ladder " ++ cfg.emoji
        thumbnail :=
          match leaderboard with
          | [] => none
          | x :: _ => if x.2.author_avatar == "" then none else some x.2.author_avatar
        leaderboard := leaderboard }

/-- The promoted entries that fall into the author group `k`, in dict order. -/
def authEntries (k : AuthorKey) (promoted : List (String × PromotedEntry)) :
    List PromotedEntry :=
  (promoted.map (fun p => p.2)).filter (fun e => author_key e == k)

/-- The accumulation the `ladder_top_joueur` loop body performs on one author
group, starting from an optional existing record. -/
def aggFold (o : Option AuthorAgg) (es : List PromotedEntry) : Option AuthorAgg :=
  es.foldl (fun o e => some (updAgg (o.getD (initAgg e)) e)) o

/-- Projection of a `ladder_top` reply onto its entries list. -/
def top_entries_of : TopResult → List TopEntry
  | .nothingPromoted => []
  | .board e => e.entries

/-! Concrete data used by the closed checks below. -/

/-- A promoted entry recorded with count 1. -/
def entC2 : PromotedEntry :=
  { ladder_msg_id := 500, author_id := some 42, author_name := "alice"
    author_avatar := "av", content := "hello", url := "u1"
    timestamp := 100, count := 1, channel_id := 7 }

/-- A config whose only promoted message is `"1"`, threshold 3. -/
def cfgC2 : LadderConfig :=
  { ladder_channel_id := some 10, emoji := "💪", threshold := 3
    promoted := [("1", entC2)], admin_role_id := none }

/-- Message `1` currently carrying 2 matching reactions (below threshold). -/
def msgC2 : Message :=
  { id := 1, author_id := 42, author_name := "alice", author_avatar := "av"
    content := "hello again", jump_url := "u1", created_at_ts := 100
    channel_id := 7, reactions := [("💪", 2)] }

/-- Promoted entry with count 5, timestamp 200. -/
def entT1 : PromotedEntry :=
  { ladder_msg_id := 501, author_id := some 1, author_name := "a1"
    author_avatar := "av1", content := "m1", url := "u11"
    timestamp := 200, count := 5, channel_id := 7 }

/-- Promoted entry with count 5, timestamp 100. -/
def entT2 : PromotedEntry :=
  { ladder_msg_id := 502, author_id := some 2, author_name := "a2"
    author_avatar := "av2", content := "m2", url := "u12"
    timestamp := 100, count := 5, channel_id := 7 }

/-- Promoted entry with count 3, timestamp 300. -/
def entT3 : PromotedEntry :=
  { ladder_msg_id := 503, author_id := some 3, author_name := "a3"
    author_avatar := "av3", content := "m3", url := "u13"
    timestamp := 300, count := 3, channel_id := 7 }

/-- Config holding the three entries of the ordering example, in the
insertion order counts [5,5,3] / timestamps [200,100,300]. -/
def cfgC3 : LadderConfig :=
  { ladder_channel_id := some 10, emoji := "💪", threshold := 3
    promoted := [("11", entT1), ("12", entT2), ("13", entT3)], admin_role_id := none }

/-- Promoted entry by author 42 with count 4. -/
def entJ1 : PromotedEntry :=
  { ladder_msg_id := 504, author_id := some 42, author_name := "alice"
    author_avatar := "av", content := "j1", url := "u21"
    timestamp := 50, count := 4, channel_id := 7 }

/-- Promoted entry by author 42 with count 7. -/
def entJ2 : PromotedEntry :=
  { ladder_msg_id := 505, author_id := some 42, author_name := "alice"
    author_avatar := "av", content := "j2", url := "u22"
    timestamp := 60, count := 7, channel_id := 7 }

/-- Config holding the two same-author entries of the aggregation example. -/
def cfgC4 : LadderConfig :=
  { ladder_channel_id := some 10, emoji := "💪", threshold := 3
    promoted := [("21", entJ1), ("22", entJ2)], admin_role_id := none }

/-- Config with admin role 5 configured and nothing promoted. -/
def cfgC7 : LadderConfig :=
  { ladder_channel_id := none, emoji := "💪", threshold := 3
    promoted := [], admin_role_id := some 5 }

/-- A caller holding the configured admin role 5 but not `manage_guild`. -/
def uRole : UserCtx := { manage_guild := false, has_roles := true, roles := [5] }

/-- A caller with `manage_guild`. -/
def uMg : UserCtx := { manage_guild := true, has_roles := true, roles := [] }

/-- A caller with neither `manage_guild` nor the configured role. -/
def uNone : UserCtx := { manage_guild := false, has_roles := true, roles := [9] }

/-- A config with nothing promoted, threshold 3, ladder channel set. -/
def cfgW : LadderConfig :=
  { ladder_channel_id := some 10, emoji := "💪", threshold := 3
    promoted := [], admin_role_id := none }

/-- A fresh message currently carrying 3 matching reactions. -/
def msgW : Message :=
  { id := 2, author_id := 42, author_name := "alice", author_avatar := "av"
    content := "yo", jump_url := "u2", created_at_ts := 120
    channel_id := 7, reactions := [("💪", 3)] }

/-- A fresh message currently carrying 1 matching reaction. -/
def msgW1 : Message :=
  { id := 3, author_id := 42, author_name := "alice", author_avatar := "av"
    content := "lo", jump_url := "u3", created_at_ts := 130
    channel_id := 7, reactions := [("💪", 1)] }

/-! Dictionary lemmas. -/

theorem dget_nil {κ α : Type} [BEq κ] (k : κ) : dget ([] : List (κ × α)) k = none := rfl

theorem dget_cons {κ α : Type} [BEq κ] (p : κ × α) (l : List (κ × α)) (k : κ) :
    dget (p :: l) k = if p.1 == k then some p.2 else dget l k := by
  cases hpk : (p.1 == k) <;> simp [dget, List.find?, hpk]

theorem dset_cons_neg {κ α : Type} [BEq κ] {p : κ × α} {k : κ} (hp : (p.1 == k) = false)
    (l : List (κ × α)) (v : α) : dset (p :: l) k v = p :: dset l k v := by
  unfold dset
  cases ha : l.any (fun q => q.1 == k) <;> simp [List.any_cons, hp, ha]

theorem dset_cons_pos {κ α : Type} [BEq κ] {p : κ × α} {k : κ} (hp : (p.1 == k) = true)
    (l : List (κ × α)) (v : α) :
    dset (p :: l) k v = (k, v) :: l.map (fun q => if q.1 == k then (k, v) else q) := by
  unfold dset
  simp [List.any_cons, hp]

theorem dget_map_setter {κ α : Type} [BEq κ] [LawfulBEq κ] {k k' : κ} (h : k' ≠ k)
    (l : List (κ × α)) (v : α) :
    dget (l.map (fun q => if q.1 == k then (k, v) else q)) k' = dget l k' := by
  have hkk' : (k == k') = false := by
    simp only [beq_eq_false_iff_ne]
    exact fun hkk => h hkk.symm
  induction l with
  | nil => rfl
  | cons q l ih =>
    rw [List.map_cons]
    cases hq : (q.1 == k)
    · rw [if_neg (by simp [hq]), dget_cons, dget_cons, ih]
    · have hq' : q.1 = k := by simpa using hq
      have h2 : (q.1 == k') = false := by rw [hq']; exact hkk'
      rw [if_pos rfl, dget_cons, dget_cons]
      rw [if_neg (by simp [hkk']), if_neg (by simp [h2]), ih]

theorem dget_dset_self {κ α : Type} [BEq κ] [LawfulBEq κ] (l : List (κ × α)) (k : κ) (v : α) :
    dget (dset l k v) k = some v := by
  induction l with
  | nil =>
    simp [dset, dget, List.find?]
  | cons p l ih =>
    cases hp : (p.1 == k)
    · rw [dset_cons_neg hp, dget_cons]
      simp only [hp, Bool.false_eq_true, if_false]
      exact ih
    · rw [dset_cons_pos hp, dget_cons]
      simp

theorem dget_dset_of_ne {κ α : Type} [BEq κ] [LawfulBEq κ] {k k' : κ} (h : k' ≠ k)
    (l : List (κ × α)) (v : α) : dget (dset l k v) k' = dget l k' := by
  induction l with
  | nil =>
    have h1 : (k == k') = false := by
      simp [beq_eq_false_iff_ne]
      exact fun hkk => h hkk.symm
    simp [dset, dget, List.find?, h1]
  | cons p l ih =>
    cases hp : (p.1 == k)
    · rw [dset_cons_neg hp, dget_cons, dget_cons, ih]
    · have hp' : p.1 = k := by simpa using hp
      have h1 : ((k, v).1 == k') = false := by
        simp [beq_eq_false_iff_ne]
        exact fun hkk => h hkk.symm
      have h2 : (p.1 == k') = false := by
        simp [beq_eq_false_iff_ne, hp']
        exact fun hkk => h hkk.symm
      rw [dset_cons_pos hp, dget_cons, dget_cons]
      simp only [h1, h2, Bool.false_eq_true, if_false]
      exact dget_map_setter h l v

theorem dget_eq_none_iff {κ α : Type} [BEq κ] (l : List (κ × α)) (k : κ) :
    dget l k = none ↔ l.any (fun p => p.1 == k) = false := by
  induction l with
  | nil => simp [dget]
  | cons p l ih =>
    rw [dget_cons, List.any_cons]
    cases hp : (p.1 == k) <;> simp [hp, ih]

theorem dcount_eq_zero_iff {κ α : Type} [BEq κ] (l : List (κ × α)) (k : κ) :
    dcount l k = 0 ↔ l.any (fun p => p.1 == k) = false := by
  induction l with
  | nil => simp [dcount]
  | cons p l ih =>
    rw [dcount] at ih ⊢
    rw [List.countP_cons, List.any_cons]
    cases hp : (p.1 == k) <;> simp [hp, ih]

theorem dcount_dset_self {κ α : Type} [BEq κ] [LawfulBEq κ] (l : List (κ × α)) (k : κ) (v : α) :
    dcount (dset l k v) k =
      if l.any (fun p => p.1 == k) then dcount l k else dcount l k + 1 := by
  unfold dset
  cases ha : l.any (fun p => p.1 == k)
  · simp only [Bool.false_eq_true, if_false]
    rw [dcount, dcount, List.countP_append]
    simp [List.countP_cons]
  · simp only [if_true]
    rw [dcount, dcount, List.countP_map]
    have : ((fun p : κ × α => p.1 == k) ∘ (fun q => if q.1 == k then (k, v) else q)) =
        (fun p : κ × α => p.1 == k) := by
      funext q
      cases hq : (q.1 == k) <;> simp [hq]
    rw [this]

theorem dcount_dset_self_of_one {κ α : Type} [BEq κ] [LawfulBEq κ]
    {l : List (κ × α)} {k : κ} (h : dcount l k = 1) (v : α) :
    dcount (dset l k v) k = 1 := by
  rw [dcount_dset_self]
  cases ha : l.any (fun p => p.1 == k)
  · exfalso
    have := (dcount_eq_zero_iff l k).mpr ha
    omega
  · simpa using h

/-! Stable-sort lemmas. -/

theorem mem_stableInsert {α : Type} (le : α → α → Bool) (x a : α) :
    ∀ l : List α, a ∈ stableInsert le x l ↔ a = x ∨ a ∈ l
  | [] => by simp [stableInsert]
  | y :: ys => by
    rw [stableInsert]
    cases hxy : le x y
    · rw [if_neg (by simp [hxy])]
      rw [List.mem_cons, List.mem_cons, mem_stableInsert le x a ys]
      tauto
    · rw [if_pos rfl]
      simp [List.mem_cons]

theorem stableInsert_perm {α : Type} (le : α → α → Bool) (x : α) :
    ∀ l : List α, List.Perm (stableInsert le x l) (x :: l)
  | [] => List.Perm.refl _
  | y :: ys => by
    rw [stableInsert]
    cases hxy : le x y
    · rw [if_neg (by simp [hxy])]
      exact ((stableInsert_perm le x ys).cons y).trans (List.Perm.swap x y ys)
    · rw [if_pos rfl]

theorem py_sort_perm {α : Type} (le : α → α → Bool) :
    ∀ l : List α, List.Perm (py_sort le l) l
  | [] => List.Perm.refl _
  | x :: xs => by
    rw [py_sort, List.foldr_cons]
    exact (stableInsert_perm le x _).trans ((py_sort_perm le xs).cons x)

theorem pairwise_stableInsert {α : Type} {le : α → α → Bool}
    (htrans : ∀ a b c, le a b = true → le b c = true → le a c = true)
    (htot : ∀ a b, le a b = true ∨ le b a = true) (x : α) :
    ∀ l : List α, l.Pairwise (fun a b => le a b = true) →
      (stableInsert le x l).Pairwise (fun a b => le a b = true)
  | [], _ => List.pairwise_singleton _ x
  | y :: ys, h => by
    rw [List.pairwise_cons] at h
    obtain ⟨hy, hys⟩ := h
    rw [stableInsert]
    cases hxy : le x y
    · rw [if_neg (by simp [hxy])]
      rw [List.pairwise_cons]
      refine ⟨?_, pairwise_stableInsert htrans htot x ys hys⟩
      intro b hb
      rcases (mem_stableInsert le x b ys).mp hb with heq | hb
      · rcases htot x y with h1 | h1
        · exact absurd h1 (by simp [hxy])
        · rw [heq]
          exact h1
      · exact hy b hb
    · rw [if_pos rfl]
      rw [List.pairwise_cons]
      refine ⟨?_, List.Pairwise.cons hy hys⟩
      intro b hb
      rcases List.mem_cons.mp hb with rfl | hb
      · exact hxy
      · exact htrans x y b hxy (hy b hb)

theorem pairwise_py_sort {α : Type} {le : α → α → Bool}
    (htrans : ∀ a b c, le a b = true → le b c = true → le a c = true)
    (htot : ∀ a b, le a b = true ∨ le b a = true) :
    ∀ l : List α, (py_sort le l).Pairwise (fun a b => le a b = true)
  | [] => List.Pairwise.nil
  | x :: xs => by
    rw [py_sort, List.foldr_cons]
    exact pairwise_stableInsert htrans htot x _ (pairwise_py_sort htrans htot xs)

/-! Slice lemmas. -/

theorem pySliceTo_zero {α : Type} (l : List α) : pySliceTo l 0 = [] := rfl

theorem pySliceTo_neg {α : Type} (l : List α) {n : Int} (h : n < 0) :
    pySliceTo l n = l.take (l.length - n.natAbs) := by
  rw [pySliceTo, if_pos h]

theorem pySliceTo_sublist {α : Type} (l : List α) (n : Int) :
    List.Sublist (pySliceTo l n) l :=
  List.take_sublist _ l

theorem pySliceTo_length_le {α : Type} (l : List α) {n : Int} (h : 0 ≤ n) :
    (pySliceTo l n).length ≤ n.toNat := by
  rw [pySliceTo, if_neg (by omega)]
  rw [List.length_take]
  exact min_le_left _ _

/-! Order lemmas for the two leaderboard keys. -/

theorem topKeyLe_trans (a b c : TopEntry) (hab : topKeyLe a b = true)
    (hbc : topKeyLe b c = true) : topKeyLe a c = true := by
  simp only [topKeyLe, Bool.or_eq_true, Bool.and_eq_true, decide_eq_true_eq] at hab hbc ⊢
  omega

theorem topKeyLe_total (a b : TopEntry) : topKeyLe a b = true ∨ topKeyLe b a = true := by
  simp only [topKeyLe, Bool.or_eq_true, Bool.and_eq_true, decide_eq_true_eq]
  omega

theorem authorKeyLe_trans (a b c : AuthorKey × AuthorAgg) (hab : authorKeyLe a b = true)
    (hbc : authorKeyLe b c = true) : authorKeyLe a c = true := by
  simp only [authorKeyLe, Bool.or_eq_true, Bool.and_eq_true, decide_eq_true_eq] at hab hbc ⊢
  omega

theorem authorKeyLe_total (a b : AuthorKey × AuthorAgg) :
    authorKeyLe a b = true ∨ authorKeyLe b a = true := by
  simp only [authorKeyLe, Bool.or_eq_true, Bool.and_eq_true, decide_eq_true_eq]
  omega

/-! Characterisation of the `by_author` aggregation. -/

theorem dget_authorStep (m : List (AuthorKey × AuthorAgg)) (e : PromotedEntry)
    (k : AuthorKey) :
    dget (authorStep m e) k =
      if author_key e == k then
        some (updAgg ((dget m (author_key e)).getD (initAgg e)) e)
      else
        dget m k := by
  by_cases h : author_key e = k
  · subst h
    rw [if_pos (by simp)]
    exact dget_dset_self m (author_key e) _
  · rw [if_neg (by simpa using h)]
    exact dget_dset_of_ne (fun hk => h hk.symm) m _

theorem by_author_aux :
    ∀ (l : List (String × PromotedEntry)) (m : List (AuthorKey × AuthorAgg)) (k : AuthorKey),
      dget (l.foldl (fun m p => authorStep m p.2) m) k = aggFold (dget m k) (authEntries k l)
  | [], m, k => rfl
  | p :: l, m, k => by
    rw [List.foldl_cons, by_author_aux l (authorStep m p.2) k, dget_authorStep]
    cases h : (author_key p.2 == k)
    · rw [if_neg (by simp [h])]
      have : authEntries k (p :: l) = authEntries k l := by
        rw [authEntries, authEntries, List.map_cons, List.filter_cons]
        rw [if_neg (by simp [h])]
      rw [this]
    · rw [if_pos rfl]
      have hk : author_key p.2 = k := by simpa using h
      have : authEntries k (p :: l) = p.2 :: authEntries k l := by
        rw [authEntries, authEntries, List.map_cons, List.filter_cons]
        rw [if_pos (by simp [h])]
      rw [this, hk]
      rfl

theorem aggFold_some (es : List PromotedEntry) :
    ∀ a : AuthorAgg, aggFold (some a) es = some (es.foldl updAgg a) := by
  induction es with
  | nil => intro a; rfl
  | cons e es ih =>
    intro a
    rw [aggFold, List.foldl_cons]
    have : (some a).getD (initAgg e) = a := rfl
    rw [this]
    exact ih (updAgg a e)

/-- What `dget (by_author promoted) k` is: `none` when no entry falls in the
group, otherwise the loop-accumulated record over the group's entries. -/
theorem by_author_char (promoted : List (String × PromotedEntry)) (k : AuthorKey) :
    dget (by_author promoted) k =
      match authEntries k promoted with
      | [] => none
      | e :: es => some (es.foldl updAgg (updAgg (initAgg e) e)) := by
  rw [by_author, by_author_aux promoted [] k, dget_nil]
  cases h : authEntries k promoted with
  | nil => rfl
  | cons e es =>
    rw [aggFold, List.foldl_cons]
    have h0 : (none : Option AuthorAgg).getD (initAgg e) = initAgg e := rfl
    rw [h0]
    exact aggFold_some es (updAgg (initAgg e) e)

/-! Projections of the accumulated record. -/

theorem foldl_updAgg_points (es : List PromotedEntry) :
    ∀ a : AuthorAgg, (es.foldl updAgg a).points = a.points + (es.map (fun e => e.count)).sum := by
  induction es with
  | nil => intro a; simp
  | cons e es ih =>
    intro a
    rw [List.foldl_cons, ih (updAgg a e), List.map_cons, List.sum_cons]
    show a.points + e.count + _ = _
    ring

theorem foldl_updAgg_msgs (es : List PromotedEntry) :
    ∀ a : AuthorAgg, (es.foldl updAgg a).msgs = a.msgs + es.length := by
  induction es with
  | nil => intro a; simp
  | cons e es ih =>
    intro a
    rw [List.foldl_cons, ih (updAgg a e), List.length_cons]
    show a.msgs + 1 + _ = _
    omega

theorem foldl_updAgg_best (es : List PromotedEntry) :
    ∀ a : AuthorAgg,
      (es.foldl updAgg a).best_single = (es.map (fun e => e.count)).foldl max a.best_single := by
  induction es with
  | nil => intro a; rfl
  | cons e es ih =>
    intro a
    rw [List.foldl_cons, ih (updAgg a e), List.map_cons, List.foldl_cons]
    rfl

theorem foldl_updAgg_first (es : List PromotedEntry) :
    ∀ a : AuthorAgg,
      (es.foldl updAgg a).first_ts = (es.map (fun e => e.timestamp)).foldl min a.first_ts := by
  induction es with
  | nil => intro a; rfl
  | cons e es ih =>
    intro a
    rw [List.foldl_cons, ih (updAgg a e), List.map_cons, List.foldl_cons]
    rfl

/-! Facts about `foldl max` / `foldl min` over `Int`. -/

theorem le_foldl_max (l : List Int) : ∀ b : Int, b ≤ l.foldl max b := by
  induction l with
  | nil => intro b; exact le_refl b
  | cons x l ih =>
    intro b
    rw [List.foldl_cons]
    exact le_trans (le_max_left b x) (ih (max b x))

theorem mem_le_foldl_max (l : List Int) :
    ∀ (b c : Int), c ∈ l → c ≤ l.foldl max b := by
  induction l with
  | nil => intro b c hc; cases hc
  | cons x l ih =>
    intro b c hc
    rw [List.foldl_cons]
    rcases List.mem_cons.mp hc with rfl | hc
    · exact le_trans (le_max_right b c) (le_foldl_max l (max b c))
    · exact ih (max b x) c hc

theorem foldl_max_mem (l : List Int) :
    ∀ b : Int, l.foldl max b = b ∨ l.foldl max b ∈ l := by
  induction l with
  | nil => intro b; exact Or.inl rfl
  | cons x l ih =>
    intro b
    rw [List.foldl_cons]
    rcases ih (max b x) with h | h
    · rw [h]
      rcases max_choice b x with h1 | h1
      · rw [h1]; exact Or.inl rfl
      · rw [h1]; exact Or.inr (List.mem_cons_self x l)
    · exact Or.inr (List.mem_cons_of_mem x h)

theorem foldl_min_le (l : List Int) : ∀ b : Int, l.foldl min b ≤ b := by
  induction l with
  | nil => intro b; exact le_refl b
  | cons x l ih =>
    intro b
    rw [List.foldl_cons]
    exact le_trans (ih (min b x)) (min_le_left b x)

theorem foldl_min_le_mem (l : List Int) :
    ∀ (b c : Int), c ∈ l → l.foldl min b ≤ c := by
  induction l with
  | nil => intro b c hc; cases hc
  | cons x l ih =>
    intro b c hc
    rw [List.foldl_cons]
    rcases List.mem_cons.mp hc with rfl | hc
    · exact le_trans (foldl_min_le l (min b c)) (min_le_right b c)
    · exact ih (min b x) c hc

theorem foldl_min_mem (l : List Int) :
    ∀ b : Int, l.foldl min b = b ∨ l.foldl min b ∈ l := by
  induction l with
  | nil => intro b; exact Or.inl rfl
  | cons x l ih =>
    intro b
    rw [List.foldl_cons]
    rcases ih (min b x) with h | h
    · rw [h]
      rcases min_choice b x with h1 | h1
      · rw [h1]; exact Or.inl rfl
      · rw [h1]; exact Or.inr (List.mem_cons_self x l)
    · exact Or.inr (List.mem_cons_of_mem x h)

/-! String truncation lemmas. -/

theorem py_truncate_length_le (s : String) (n : Nat) : (py_truncate s n).length ≤ n := by
  show (s.data.take n).length ≤ n
  rw [List.length_take]
  exact min_le_left _ _

theorem py_truncate_of_le {s : String} {n : Nat} (h : s.length ≤ n) : py_truncate s n = s := by
  show String.mk (s.data.take n) = s
  have hd : s.data.length ≤ n := h
  rw [List.take_of_length_le hd]

/-! Group-level properties of `by_author`. -/

theorem by_author_group_props (promoted : List (String × PromotedEntry)) (k : AuthorKey)
    (a : AuthorAgg) (h : dget (by_author promoted) k = some a) :
    a.points = ((authEntries k promoted).map (fun e => e.count)).sum ∧
    a.msgs = (authEntries k promoted).length ∧
    a.first_ts ∈ (authEntries k promoted).map (fun e => e.timestamp) ∧
    (∀ t ∈ (authEntries k promoted).map (fun e => e.timestamp), a.first_ts ≤ t) ∧
    ((∀ c ∈ (authEntries k promoted).map (fun e => e.count), 0 ≤ c) →
      a.best_single ∈ (authEntries k promoted).map (fun e => e.count) ∧
      ∀ c ∈ (authEntries k promoted).map (fun e => e.count), c ≤ a.best_single) := by
  rw [by_author_char] at h
  cases hES : authEntries k promoted with
  | nil =>
    rw [hES] at h
    cases h
  | cons e es =>
    rw [hES] at h
    injection h with h
    subst h
    have hbase_p : (updAgg (initAgg e) e).points = 0 + e.count := rfl
    have hbase_m : (updAgg (initAgg e) e).msgs = 1 := rfl
    have hbase_f : (updAgg (initAgg e) e).first_ts = min e.timestamp e.timestamp := rfl
    have hbase_b : (updAgg (initAgg e) e).best_single = max 0 e.count := rfl
    refine ⟨?_, ?_, ?_, ?_, ?_⟩
    · rw [foldl_updAgg_points, hbase_p, List.map_cons, List.sum_cons]
      omega
    · rw [foldl_updAgg_msgs, hbase_m, List.length_cons]
      omega
    · rw [foldl_updAgg_first, hbase_f, min_self, List.map_cons, List.mem_cons]
      rcases foldl_min_mem (es.map (fun e => e.timestamp)) e.timestamp with h1 | h1
      · exact Or.inl h1
      · exact Or.inr h1
    · intro t ht
      rw [foldl_updAgg_first, hbase_f, min_self]
      rw [List.map_cons, List.mem_cons] at ht
      rcases ht with rfl | ht
      · exact foldl_min_le _ _
      · exact foldl_min_le_mem _ _ _ ht
    · intro hnn
      have hce : (0 : Int) ≤ e.count := by
        apply hnn
        rw [List.map_cons, List.mem_cons]
        exact Or.inl rfl
      have hbase_b' : (updAgg (initAgg e) e).best_single = e.count := by
        rw [hbase_b]
        exact max_eq_right hce
      constructor
      · rw [foldl_updAgg_best, hbase_b', List.map_cons, List.mem_cons]
        rcases foldl_max_mem (es.map (fun e => e.count)) e.count with h1 | h1
        · exact Or.inl h1
        · exact Or.inr h1
      · intro c hc
        rw [foldl_updAgg_best, hbase_b']
        rw [List.map_cons, List.mem_cons] at hc
        rcases hc with rfl | hc
        · exact le_foldl_max _ _
        · exact mem_le_foldl_max _ _ _ hc

/-- A non-nil list is not `isEmpty`. -/
theorem isEmpty_false_of_ne_nil {α : Type} {l : List α} (h : l ≠ []) : l.isEmpty = false := by
  cases l with
  | nil => exact absurd rfl h
  | cons a l => rfl

/-! Claim theorems. -/

/-- C8: for every integer value passed to the set-threshold command by an
authorized caller, the stored threshold afterwards equals `max 1 value`;
in particular 0 and every negative value give exactly 1; the command
succeeds and persists. -/
theorem c8_threshold_clamped (cfg : LadderConfig) (u : UserCtx) (value : Int)
    (h : require_admin_check cfg u = true) :
    (ladder_set_threshold cfg u value).cfg.threshold = max 1 value ∧
    (value ≤ 0 → (ladder_set_threshold cfg u value).cfg.threshold = 1) ∧
    (ladder_set_threshold cfg u value).result = .ok ∧
    (ladder_set_threshold cfg u value).saved = true := by
  rw [ladder_set_threshold, if_neg (by simp [h])]
  refine ⟨rfl, ?_, rfl, rfl⟩
  intro hv
  show max 1 value = 1
  omega

/-- C8 witness at threshold value -4 for a manage-guild caller. -/
theorem c8_threshold_clamped_witness :
    require_admin_check cfgW uMg = true ∧
    (ladder_set_threshold cfgW uMg (-4)).cfg.threshold = 1 ∧
    (ladder_set_threshold cfgW uMg 0).cfg.threshold = 1 := by
  refine ⟨by decide, ?_, ?_⟩
  · exact (c8_threshold_clamped cfgW uMg (-4) (by decide)).2.1 (by decide)
  · exact (c8_threshold_clamped cfgW uMg 0 (by decide)).2.1 (by decide)

/-- C9: with an empty promoted mapping both leaderboard views answer the
"nothing promoted yet" reply rather than an empty board (both views are
read-only over the config: they are pure functions of it). -/
theorem c9_empty_views (cfg : LadderConfig) (limit : Int) (h : cfg.promoted = []) :
    ladder_top cfg limit = .nothingPromoted ∧
    ladder_top_joueur cfg limit = .nothingPromoted := by
  constructor
  · rw [ladder_top, if_pos (by rw [h]; rfl)]
  · rw [ladder_top_joueur, if_pos (by rw [h]; rfl)]

/-- C9 witness on the empty config. -/
theorem c9_empty_views_witness :
    cfgW.promoted = [] ∧
    ladder_top cfgW 10 = .nothingPromoted ∧
    ladder_top_joueur cfgW 10 = .nothingPromoted := by
  have h := c9_empty_views cfgW 10 rfl
  exact ⟨rfl, h.1, h.2⟩

/-- C10: with a non-empty promoted mapping, limit 0 yields a board with zero
entries and zero fields (not the nothing-promoted reply), and a negative
limit `n` yields the sorted list with its last `natAbs n` entries removed
(Python slice semantics) rather than a list truncated to `natAbs n`
entries. -/
theorem c10_limit_slice (cfg : LadderConfig) (h : cfg.promoted ≠ []) :
    (∃ emb, ladder_top cfg 0 = .board emb ∧ emb.entries = [] ∧ emb.fields = []) ∧
    (∀ n : Int, n < 0 → ∃ emb, ladder_top cfg n = .board emb ∧
      emb.entries = (sorted_entries cfg).take ((sorted_entries cfg).length - n.natAbs)) := by
  have hne : cfg.promoted.isEmpty = false := isEmpty_false_of_ne_nil h
  constructor
  · rw [ladder_top, if_neg (by simp [hne])]
    exact ⟨_, rfl, rfl, rfl⟩
  · intro n hn
    rw [ladder_top, if_neg (by simp [hne])]
    refine ⟨_, rfl, ?_⟩
    show pySliceTo (sorted_entries cfg) n = _
    rw [pySliceTo_neg _ hn]

/-- C10 witness on the three-entry config with limits 0 and -1. -/
theorem c10_limit_slice_witness :
    cfgC3.promoted ≠ [] ∧
    (∃ emb, ladder_top cfgC3 0 = .board emb ∧ emb.entries = [] ∧ emb.fields = []) ∧
    (∃ emb, ladder_top cfgC3 (-1) = .board emb ∧
      emb.entries = (sorted_entries cfgC3).take ((sorted_entries cfgC3).length - (-1 : Int).natAbs)) := by
  have h := c10_limit_slice cfgC3 (by decide)
  exact ⟨by decide, h.1, h.2 (-1) (by decide)⟩

/-- C6: a caller with neither manage-guild nor the configured admin role is
rejected by all four settings-mutating commands: the config is returned
unchanged, no save happens, and the reply is the permission-denied
message. -/
theorem c6_unauthorized_rejected (cfg : LadderConfig) (u : UserCtx)
    (roleId channelId : Nat) (value : Int) (emoji : String)
    (hmg : u.manage_guild = false)
    (hrole : ∀ rid, cfg.admin_role_id = some rid → ¬ rid ∈ u.roles) :
    ladder_set_admin_role cfg u roleId = { cfg := cfg, result := .denied, saved := false } ∧
    ladder_set_channel cfg u channelId = { cfg := cfg, result := .denied, saved := false } ∧
    ladder_set_threshold cfg u value = { cfg := cfg, result := .denied, saved := false } ∧
    ladder_set_emoji cfg u emoji = { cfg := cfg, result := .denied, saved := false } := by
  have hchk : require_admin_check cfg u = false := by
    rw [require_admin_check, if_neg (by simp [hmg])]
    cases hcf : cfg.admin_role_id with
    | none => rfl
    | some rid =>
      cases han : u.roles.any (fun r => r == rid) with
      | false => simp [han]
      | true =>
        exfalso
        rcases List.any_eq_true.mp han with ⟨r, hr, hrq⟩
        have hrr : r = rid := by simpa using hrq
        exact hrole rid hcf (hrr ▸ hr)
  refine ⟨?_, ?_, ?_, ?_⟩
  · rw [ladder_set_admin_role, if_pos (by simp [hchk])]
  · rw [ladder_set_channel, if_pos (by simp [hchk])]
  · rw [ladder_set_threshold, if_pos (by simp [hchk])]
  · rw [ladder_set_emoji, if_pos (by simp [hchk])]

/-- C6 witness: the role-9 caller against the role-5 config. -/
theorem c6_unauthorized_rejected_witness :
    uNone.manage_guild = false ∧
    (ladder_set_threshold cfgC7 uNone 5).cfg = cfgC7 ∧
    (ladder_set_threshold cfgC7 uNone 5).saved = false ∧
    (ladder_set_channel cfgC7 uNone 99).result = .denied := by
  have h := c6_unauthorized_rejected cfgC7 uNone 1 99 5 "x" rfl
    (fun rid hrid => by
      rw [show cfgC7.admin_role_id = some 5 from rfl] at hrid
      injection hrid with h5
      subst h5
      decide)
  refine ⟨rfl, ?_, ?_, ?_⟩
  · rw [h.2.2.1]
  · rw [h.2.2.1]
  · rw [h.2.1]

/-- C7 counterexample: with admin role 5 configured, a caller holding role 5
but lacking manage-guild passes `require_admin`, yet `ladder_set_admin_role`
replies with its in-body manage-guild demand and mutates nothing, so the two
credentials are not interchangeable for all four settings commands. -/
theorem c7_role_only_caller_counterexample :
    require_admin_check cfgC7 uRole = true ∧
    uRole.manage_guild = false ∧
    ladder_set_admin_role cfgC7 uRole 7 =
      { cfg := cfgC7, result := .needManageGuild, saved := false } ∧
    (ladder_set_admin_role cfgC7 uRole 7).cfg.admin_role_id = some 5 := by
  exact ⟨by decide, by decide, by decide, by decide⟩

/-- C7 amended: a caller holding the configured admin role without
manage-guild is authorized for the channel, threshold and emoji commands,
which mutate and save; `ladder_set_admin_role` alone additionally demands
manage-guild and leaves the config unchanged for such a caller. -/
theorem c7_admin_role_scope (cfg : LadderConfig) (u : UserCtx) (rid : Nat)
    (roleId channelId : Nat) (value : Int) (emoji : String)
    (hcf : cfg.admin_role_id = some rid) (hrid : rid ≠ 0)
    (hhr : u.has_roles = true) (hmem : rid ∈ u.roles) (hmg : u.manage_guild = false) :
    ladder_set_channel cfg u channelId =
      { cfg := { cfg with ladder_channel_id := some channelId }, result := .ok, saved := true } ∧
    ladder_set_threshold cfg u value =
      { cfg := { cfg with threshold := max 1 value }, result := .ok, saved := true } ∧
    ladder_set_emoji cfg u emoji =
      { cfg := { cfg with emoji := emoji }, result := .ok, saved := true } ∧
    ladder_set_admin_role cfg u roleId =
      { cfg := cfg, result := .needManageGuild, saved := false } := by
  have hchk : require_admin_check cfg u = true := by
    rw [require_admin_check, if_neg (by simp [hmg]), hcf]
    have h1 : (rid != 0) = true := by simpa using hrid
    have h2 : u.roles.any (fun r => r == rid) = true :=
      List.any_eq_true.mpr ⟨rid, hmem, by simp⟩
    simp [h1, hhr, h2]
  refine ⟨?_, ?_, ?_, ?_⟩
  · rw [ladder_set_channel, if_neg (by simp [hchk])]
  · rw [ladder_set_threshold, if_neg (by simp [hchk])]
  · rw [ladder_set_emoji, if_neg (by simp [hchk])]
  · rw [ladder_set_admin_role, if_neg (by simp [hchk]), if_pos (by simp [hmg])]

/-- C7 witness: the role-5 caller succeeds on the three plain settings
commands but not on the admin-role command. -/
theorem c7_admin_role_scope_witness :
    cfgC7.admin_role_id = some 5 ∧
    (ladder_set_threshold cfgC7 uRole 0).cfg.threshold = 1 ∧
    (ladder_set_channel cfgC7 uRole 99).result = .ok ∧
    (ladder_set_admin_role cfgC7 uRole 7).cfg = cfgC7 := by
  have h := c7_admin_role_scope cfgC7 uRole 5 7 99 0 "x" rfl (by decide) rfl (by decide) rfl
  refine ⟨rfl, ?_, ?_, ?_⟩
  · rw [h.2.1]
    decide
  · rw [h.1]
  · rw [h.2.2.2]

/-- C5: when the destination message of an already-promoted message is gone
(the fetch hits the not-found handler), `post_or_update` sends one new
destination message, stores its id as `ladder_msg_id`, keeps the entry
under the same key with author, content, url, timestamp, count and
channel id populated from the current message, and saves the config. -/
theorem c5_recreate_destination (cfg : LadderConfig) (msg : Message)
    (count : Int) (sentId : Nat) (e0 : PromotedEntry)
    (h : dget cfg.promoted (toString msg.id) = some e0) :
    (post_or_update cfg true false msg count sentId).action = .recreated ∧
    (post_or_update cfg true false msg count sentId).sends = 1 ∧
    (post_or_update cfg true false msg count sentId).saved = true ∧
    dget (post_or_update cfg true false msg count sentId).cfg.promoted (toString msg.id) =
      some (freshEntry msg count sentId) ∧
    (freshEntry msg count sentId).ladder_msg_id = sentId ∧
    (freshEntry msg count sentId).author_id = some msg.author_id ∧
    (freshEntry msg count sentId).author_name = msg.author_name ∧
    (freshEntry msg count sentId).content = msg.content ∧
    (freshEntry msg count sentId).url = msg.jump_url ∧
    (freshEntry msg count sentId).timestamp = msg.created_at_ts ∧
    (freshEntry msg count sentId).count = count ∧
    (freshEntry msg count sentId).channel_id = msg.channel_id := by
  have hpost : post_or_update cfg true false msg count sentId =
      { cfg := { cfg with
          promoted := dset cfg.promoted (toString msg.id) (freshEntry msg count sentId) }
        sends := 1, saved := true, action := .recreated } := by
    rw [post_or_update]
    simp only [Bool.not_true, Bool.false_eq_true, if_false, h]
  rw [hpost]
  refine ⟨rfl, rfl, rfl, ?_, rfl, rfl, rfl, rfl, rfl, rfl, rfl, rfl⟩
  exact dget_dset_self cfg.promoted (toString msg.id) (freshEntry msg count sentId)

/-- C5 witness: recreation for promoted message "1" with a failed fetch. -/
theorem c5_recreate_destination_witness :
    dget cfgC2.promoted (toString msgC2.id) = some entC2 ∧
    (post_or_update cfgC2 true false msgC2 5 900).action = .recreated ∧
    (post_or_update cfgC2 true false msgC2 5 900).saved = true ∧
    dget (post_or_update cfgC2 true false msgC2 5 900).cfg.promoted "1" =
      some (freshEntry msgC2 5 900) := by
  have h := c5_recreate_destination cfgC2 msgC2 5 900 entC2 (by decide)
  refine ⟨by decide, h.1, h.2.2.1, ?_⟩
  have hk : toString msgC2.id = "1" := by decide
  rw [← hk]
  exact h.2.2.2.1

/-- The bot-user guard is false whenever the reacting user differs from the
logged-in bot user. -/
theorem is_bot_user_false {botUserId : Option Nat} {payloadUserId : Nat}
    (hbot : ∀ b, botUserId = some b → payloadUserId ≠ b) :
    is_bot_user botUserId payloadUserId = false := by
  cases botUserId with
  | none => rfl
  | some b => simpa [is_bot_user, beq_eq_false_iff_ne] using hbot b rfl

/-- Any `post_or_update` run keeps a uniquely-keyed entry uniquely keyed. -/
theorem post_or_update_dcount (cfg : LadderConfig) (channelOk fetchOk : Bool)
    (msg : Message) (count : Int) (sentId : Nat)
    (h : dcount cfg.promoted (toString msg.id) = 1) :
    dcount (post_or_update cfg channelOk fetchOk msg count sentId).cfg.promoted
      (toString msg.id) = 1 := by
  rw [post_or_update]
  split
  · exact h
  · cases hg : dget cfg.promoted (toString msg.id) with
    | none =>
      exfalso
      have h0 := (dcount_eq_zero_iff cfg.promoted (toString msg.id)).mpr
        ((dget_eq_none_iff cfg.promoted (toString msg.id)).mp hg)
      omega
    | some e =>
      simp only [hg]
      split
      · exact dcount_dset_self_of_one h _
      · exact dcount_dset_self_of_one h _

/-- Any add event keeps a uniquely-keyed entry uniquely keyed. -/
theorem on_add_dcount (cfg : LadderConfig) (botUserId : Option Nat)
    (payloadUserId : Nat) (payloadEmoji : String) (guildOk : Bool)
    (msg : Message) (channelOk fetchOk : Bool) (sentId : Nat)
    (h : dcount cfg.promoted (toString msg.id) = 1) :
    dcount (on_raw_reaction_add cfg botUserId payloadUserId payloadEmoji guildOk
      msg channelOk fetchOk sentId).cfg.promoted (toString msg.id) = 1 := by
  simp only [on_raw_reaction_add]
  split
  · exact h
  · split
    · exact h
    · split
      · exact h
      · split
        · exact post_or_update_dcount cfg channelOk fetchOk msg _ sentId h
        · exact h

/-- Any remove event keeps a uniquely-keyed entry uniquely keyed. -/
theorem on_remove_dcount (cfg : LadderConfig) (payloadEmoji : String)
    (guildOk : Bool) (msg : Message) (channelOk fetchOk : Bool) (sentId : Nat)
    (h : dcount cfg.promoted (toString msg.id) = 1) :
    dcount (on_raw_reaction_remove cfg payloadEmoji guildOk msg channelOk
      fetchOk sentId).cfg.promoted (toString msg.id) = 1 := by
  rw [on_raw_reaction_remove]
  split
  · exact h
  · split
    · exact h
    · split
      · exact post_or_update_dcount cfg channelOk fetchOk msg _ sentId h
      · exact h

/-- A `post_or_update` run on an already-promoted message (with the channel
resolvable) always refreshes the stored entry: afterwards its count is the
passed count and the author snapshot and content match the current message,
whether the destination edit succeeded or the recreate path ran; the config
is saved. -/
theorem post_or_update_refresh (cfg : LadderConfig) (fetchOk : Bool)
    (msg : Message) (count : Int) (sentId : Nat) (e0 : PromotedEntry)
    (h : dget cfg.promoted (toString msg.id) = some e0) :
    ∃ e, dget (post_or_update cfg true fetchOk msg count sentId).cfg.promoted
        (toString msg.id) = some e ∧
      e.count = count ∧ e.author_id = some msg.author_id ∧
      e.author_name = msg.author_name ∧ e.author_avatar = msg.author_avatar ∧
      e.content = msg.content ∧
      (post_or_update cfg true fetchOk msg count sentId).saved = true := by
  cases fetchOk
  · have hpost : post_or_update cfg true false msg count sentId =
        { cfg := { cfg with
            promoted := dset cfg.promoted (toString msg.id) (freshEntry msg count sentId) }
          sends := 1, saved := true, action := .recreated } := by
      rw [post_or_update]
      simp only [Bool.not_true, Bool.false_eq_true, if_false, h]
    rw [hpost]
    exact ⟨freshEntry msg count sentId,
      dget_dset_self cfg.promoted (toString msg.id) _, rfl, rfl, rfl, rfl, rfl, rfl⟩
  · have hpost : post_or_update cfg true true msg count sentId =
        { cfg := { cfg with
            promoted := dset cfg.promoted (toString msg.id)
              { e0 with
                count := count,
                author_id := some msg.author_id,
                author_name := msg.author_name,
                author_avatar := msg.author_avatar,
                content := msg.content } }
          sends := 0, saved := true, action := .edited } := by
      rw [post_or_update]
      simp only [Bool.not_true, Bool.false_eq_true, if_false, h, if_true]
    rw [hpost]
    exact ⟨_, dget_dset_self cfg.promoted (toString msg.id) _, rfl, rfl, rfl, rfl, rfl, rfl⟩

/-- C1: from a reaction-add event on a message with no promoted entry:
below the threshold nothing happens (no entry created, nothing sent,
nothing saved); at or above the threshold, with the ladder channel
resolvable, exactly one destination message is sent and exactly one entry
is recorded under the message key; and once exactly one entry sits under a
message key, every later add or remove event leaves exactly one entry
under that key. -/
theorem c1_first_promotion_once (cfg : LadderConfig) (botUserId : Option Nat)
    (payloadUserId : Nat) (msg : Message) (channelOk fetchOk : Bool) (sentId : Nat)
    (hbot : ∀ b, botUserId = some b → payloadUserId ≠ b) :
    (dget cfg.promoted (toString msg.id) = none →
      count_reactions cfg msg < cfg.threshold →
      on_raw_reaction_add cfg botUserId payloadUserId cfg.emoji true msg channelOk fetchOk sentId =
        { cfg := cfg, sends := 0, saved := false, action := .noPost }) ∧
    (dget cfg.promoted (toString msg.id) = none →
      cfg.threshold ≤ count_reactions cfg msg →
      on_raw_reaction_add cfg botUserId payloadUserId cfg.emoji true msg true fetchOk sentId =
        { cfg := { cfg with promoted := dset cfg.promoted (toString msg.id) (freshEntry msg (count_reactions cfg msg) sentId) }
          sends := 1, saved := true, action := .created } ∧
      dget (on_raw_reaction_add cfg botUserId payloadUserId cfg.emoji true msg true
          fetchOk sentId).cfg.promoted (toString msg.id) =
        some (freshEntry msg (count_reactions cfg msg) sentId) ∧
      dcount (on_raw_reaction_add cfg botUserId payloadUserId cfg.emoji true msg true
          fetchOk sentId).cfg.promoted (toString msg.id) = 1) ∧
    (∀ payloadEmoji guildOk,
      dcount cfg.promoted (toString msg.id) = 1 →
      dcount (on_raw_reaction_add cfg botUserId payloadUserId payloadEmoji guildOk msg
          channelOk fetchOk sentId).cfg.promoted (toString msg.id) = 1 ∧
      dcount (on_raw_reaction_remove cfg payloadEmoji guildOk msg channelOk
          fetchOk sentId).cfg.promoted (toString msg.id) = 1) := by
  have hskip : is_bot_user botUserId payloadUserId = false := is_bot_user_false hbot
  refine ⟨?_, ?_, ?_⟩
  · intro hnone hlt
    simp only [on_raw_reaction_add]
    rw [if_neg (by simp [hskip]), if_neg (by simp), if_neg (by simp),
      if_neg (not_le.mpr hlt)]
  · intro hnone hge
    have hadd : on_raw_reaction_add cfg botUserId payloadUserId cfg.emoji true msg true
        fetchOk sentId =
        { cfg := { cfg with promoted := dset cfg.promoted (toString msg.id) (freshEntry msg (count_reactions cfg msg) sentId) }
          sends := 1, saved := true, action := .created } := by
      simp only [on_raw_reaction_add]
      rw [if_neg (by simp [hskip]), if_neg (by simp), if_neg (by simp), if_pos hge]
      rw [post_or_update]
      simp only [Bool.not_true, Bool.false_eq_true, if_false, hnone]
    have hany := (dget_eq_none_iff cfg.promoted (toString msg.id)).mp hnone
    have h0 : dcount cfg.promoted (toString msg.id) = 0 :=
      (dcount_eq_zero_iff cfg.promoted (toString msg.id)).mpr hany
    refine ⟨hadd, ?_, ?_⟩
    · rw [hadd]
      exact dget_dset_self cfg.promoted (toString msg.id) _
    · rw [hadd]
      show dcount (dset cfg.promoted (toString msg.id) _) (toString msg.id) = 1
      rw [dcount_dset_self, if_neg (by simp [hany]), h0]
  · intro payloadEmoji guildOk h
    exact ⟨on_add_dcount cfg botUserId payloadUserId payloadEmoji guildOk msg
        channelOk fetchOk sentId h,
      on_remove_dcount cfg payloadEmoji guildOk msg channelOk fetchOk sentId h⟩

/-- C1 witness: below-threshold no-op on message 3, creation on message 2,
and key-uniqueness preservation on the already-promoted message 1. -/
theorem c1_first_promotion_once_witness :
    dget cfgW.promoted (toString msgW1.id) = none ∧
    on_raw_reaction_add cfgW none 99 cfgW.emoji true msgW1 true true 900 =
      { cfg := cfgW, sends := 0, saved := false, action := .noPost } ∧
    (on_raw_reaction_add cfgW none 99 cfgW.emoji true msgW true true 901).sends = 1 ∧
    dcount (on_raw_reaction_add cfgC2 none 99 cfgC2.emoji true msgC2 true true
      902).cfg.promoted (toString msgC2.id) = 1 := by
  have h1 := c1_first_promotion_once cfgW none 99 msgW1 true true 900
    (fun b hb => by cases hb)
  have h2 := c1_first_promotion_once cfgW none 99 msgW true true 901
    (fun b hb => by cases hb)
  have h3 := c1_first_promotion_once cfgC2 none 99 msgC2 true true 902
    (fun b hb => by cases hb)
  refine ⟨by decide, h1.1 (by decide) (by decide), ?_, (h3.2.2 cfgC2.emoji true (by decide)).1⟩
  rw [(h2.2.1 (by decide) (by decide)).1]

/-- C2 counterexample: message "1" is promoted with stored count 1; an add
event observes count 2, below the threshold 3, and the handler does
nothing, so the stored count stays 1 instead of being refreshed to the
latest observed count 2. -/
theorem c2_add_below_threshold_counterexample :
    (dget cfgC2.promoted "1").isSome = true ∧
    count_reactions cfgC2 msgC2 = 2 ∧
    cfgC2.threshold = 3 ∧
    on_raw_reaction_add cfgC2 none 99 cfgC2.emoji true msgC2 true true 800 =
      { cfg := cfgC2, sends := 0, saved := false, action := .noPost } ∧
    (dget cfgC2.promoted "1").map (fun e => e.count) = some 1 := by
  exact ⟨by decide, by decide, by decide, by decide, by decide⟩

/-- C2 amended: on an already-promoted message (ladder channel resolvable),
every matching remove event refreshes the entry — count set to the latest
observed count, author snapshot and content updated, config saved — and so
does every matching add event whose observed count is at or above the
threshold; an add event observing a below-threshold count leaves the
config untouched. -/
theorem c2_refresh_conditions (cfg : LadderConfig) (botUserId : Option Nat)
    (payloadUserId : Nat) (msg : Message) (fetchOk : Bool) (sentId : Nat)
    (e0 : PromotedEntry)
    (hbot2 : ∀ b, botUserId = some b → payloadUserId ≠ b)
    (hentry : dget cfg.promoted (toString msg.id) = some e0) :
    (∃ e, dget (on_raw_reaction_remove cfg cfg.emoji true msg true fetchOk
          sentId).cfg.promoted (toString msg.id) = some e ∧
      e.count = count_reactions cfg msg ∧ e.author_id = some msg.author_id ∧
      e.author_name = msg.author_name ∧ e.author_avatar = msg.author_avatar ∧
      e.content = msg.content ∧
      (on_raw_reaction_remove cfg cfg.emoji true msg true fetchOk sentId).saved = true) ∧
    (cfg.threshold ≤ count_reactions cfg msg →
      ∃ e, dget (on_raw_reaction_add cfg botUserId payloadUserId cfg.emoji true msg
            true fetchOk sentId).cfg.promoted (toString msg.id) = some e ∧
        e.count = count_reactions cfg msg ∧ e.author_id = some msg.author_id ∧
        e.author_name = msg.author_name ∧ e.author_avatar = msg.author_avatar ∧
        e.content = msg.content ∧
        (on_raw_reaction_add cfg botUserId payloadUserId cfg.emoji true msg true
          fetchOk sentId).saved = true) ∧
    (count_reactions cfg msg < cfg.threshold →
      on_raw_reaction_add cfg botUserId payloadUserId cfg.emoji true msg true
        fetchOk sentId = { cfg := cfg, sends := 0, saved := false, action := .noPost }) := by
  have hskip : is_bot_user botUserId payloadUserId = false := is_bot_user_false hbot2
  refine ⟨?_, ?_, ?_⟩
  · have hrem : on_raw_reaction_remove cfg cfg.emoji true msg true fetchOk sentId =
        post_or_update cfg true fetchOk msg (count_reactions cfg msg) sentId := by
      simp only [on_raw_reaction_remove]
      rw [if_neg (by simp), if_neg (by simp), if_pos (by rw [hentry]; rfl)]
    rw [hrem]
    exact post_or_update_refresh cfg fetchOk msg (count_reactions cfg msg) sentId e0 hentry
  · intro hge
    have hadd : on_raw_reaction_add cfg botUserId payloadUserId cfg.emoji true msg true
        fetchOk sentId =
        post_or_update cfg true fetchOk msg (count_reactions cfg msg) sentId := by
      simp only [on_raw_reaction_add]
      rw [if_neg (by simp [hskip]), if_neg (by simp), if_neg (by simp), if_pos hge]
    rw [hadd]
    exact post_or_update_refresh cfg fetchOk msg (count_reactions cfg msg) sentId e0 hentry
  · intro hlt
    simp only [on_raw_reaction_add]
    rw [if_neg (by simp [hskip]), if_neg (by simp), if_neg (by simp),
      if_neg (not_le.mpr hlt)]

/-- C2 witness: on the promoted message 1 a matching remove event refreshes
the stored count, while the below-threshold add event is a no-op. -/
theorem c2_refresh_conditions_witness :
    dget cfgC2.promoted (toString msgC2.id) = some entC2 ∧
    (∃ e, dget (on_raw_reaction_remove cfgC2 cfgC2.emoji true msgC2 true true
          903).cfg.promoted (toString msgC2.id) = some e ∧
      e.count = count_reactions cfgC2 msgC2 ∧ e.author_id = some msgC2.author_id ∧
      e.author_name = msgC2.author_name ∧ e.author_avatar = msgC2.author_avatar ∧
      e.content = msgC2.content ∧
      (on_raw_reaction_remove cfgC2 cfgC2.emoji true msgC2 true true 903).saved = true) ∧
    on_raw_reaction_add cfgC2 none 99 cfgC2.emoji true msgC2 true true 903 =
      { cfg := cfgC2, sends := 0, saved := false, action := .noPost } := by
  have h := c2_refresh_conditions cfgC2 none 99 msgC2 true 903 entC2
    (fun b hb => by cases hb) (by decide)
  exact ⟨by decide, h.1, h.2.2 (by decide)⟩

/-- C3: with a non-empty mapping and positive limit, `ladder_top` shows the
promoted entries sorted by the key (-count, timestamp) ascending (highest
count first, ties broken by older timestamp), truncated to the limit
(the Python parameter default being 10); the output is a permutation
prefix of the promoted entries; on the sample with counts [5,5,3] and
timestamps [200,100,300] the order is (5,100), (5,200), (3,300); each
displayed content is cut to at most 200 characters with an ellipsis
appended exactly when the content is longer. -/
theorem c3_top_messages_order (cfg : LadderConfig) (limit : Int)
    (hne : cfg.promoted ≠ []) (hpos : 0 < limit) :
    (∃ emb, ladder_top cfg limit = .board emb ∧
      emb.entries = pySliceTo (sorted_entries cfg) limit ∧
      emb.entries.Pairwise (fun a b => topKeyLe a b = true) ∧
      emb.entries.length ≤ limit.toNat) ∧
    List.Perm (sorted_entries cfg)
      (cfg.promoted.map (fun p =>
        { msg_id := p.1, count := p.2.count, timestamp := p.2.timestamp, data := p.2 })) ∧
    (top_entries_of (ladder_top cfgC3 10)).map (fun e => (e.count, e.timestamp)) =
      [(5, 100), (5, 200), (3, 300)] ∧
    (∀ e : PromotedEntry,
      (py_truncate (display_content e) 200).length ≤ 200 ∧
      ((display_content e).length ≤ 200 →
        field_value e =
          "> " ++ display_content e ++ "\n[🔗 Lien vers le message](" ++ e.url ++ ")") ∧
      (200 < (display_content e).length →
        field_value e =
          "> " ++ py_truncate (display_content e) 200 ++ "…" ++
            "\n[🔗 Lien vers le message](" ++ e.url ++ ")")) := by
  have hne' : cfg.promoted.isEmpty = false := isEmpty_false_of_ne_nil hne
  refine ⟨?_, ?_, ?_, ?_⟩
  · rw [ladder_top, if_neg (by simp [hne'])]
    refine ⟨_, rfl, rfl, ?_, ?_⟩
    · have hp : (sorted_entries cfg).Pairwise (fun a b => topKeyLe a b = true) :=
        pairwise_py_sort topKeyLe_trans topKeyLe_total _
      exact hp.sublist (pySliceTo_sublist _ _)
    · exact pySliceTo_length_le _ (le_of_lt hpos)
  · exact py_sort_perm topKeyLe _
  · decide
  · intro e
    refine ⟨py_truncate_length_le _ 200, ?_, ?_⟩
    · intro h
      simp only [field_value]
      rw [py_truncate_of_le h, if_neg (not_lt.mpr h), String.append_empty]
    · intro h
      simp only [field_value]
      rw [if_pos h]

/-- C3 witness: the three-entry sample with limit 10. -/
theorem c3_top_messages_order_witness :
    cfgC3.promoted ≠ [] ∧ (0 : Int) < 10 ∧
    (top_entries_of (ladder_top cfgC3 10)).map (fun e => (e.count, e.timestamp)) =
      [(5, 100), (5, 200), (3, 300)] :=
  ⟨by decide, by decide, (c3_top_messages_order cfgC3 10 (by decide) (by decide)).2.2.1⟩

/-- C4: `ladder_top_joueur` groups promoted entries by author key; for every
group present in the accumulator its points are the sum of the group's
counts, its message count is the number of the group's entries, its first
timestamp is the minimum of the group's timestamps, and (for non-negative
counts) its best single is the maximum of the group's counts; the board is
the accumulated groups sorted by (-points, -best_single, first_ts)
ascending and truncated to the limit; on the sample with two entries by
author 42 with counts 4 and 7 the group has points 11, msgs 2,
best_single 7. -/
theorem c4_top_authors (cfg : LadderConfig) (limit : Int) (hne : cfg.promoted ≠ []) :
    (∀ k a, dget (by_author cfg.promoted) k = some a →
      a.points = ((authEntries k cfg.promoted).map (fun e => e.count)).sum ∧
      a.msgs = (authEntries k cfg.promoted).length ∧
      a.first_ts ∈ (authEntries k cfg.promoted).map (fun e => e.timestamp) ∧
      (∀ t ∈ (authEntries k cfg.promoted).map (fun e => e.timestamp), a.first_ts ≤ t) ∧
      ((∀ c ∈ (authEntries k cfg.promoted).map (fun e => e.count), 0 ≤ c) →
        a.best_single ∈ (authEntries k cfg.promoted).map (fun e => e.count) ∧
        ∀ c ∈ (authEntries k cfg.promoted).map (fun e => e.count), c ≤ a.best_single)) ∧
    (∃ emb, ladder_top_joueur cfg limit = .board emb ∧
      emb.leaderboard = pySliceTo (py_sort authorKeyLe (by_author cfg.promoted)) limit ∧
      emb.leaderboard.Pairwise (fun a b => authorKeyLe a b = true)) ∧
    (dget (by_author cfgC4.promoted) (.byId 42)).map
      (fun a => (a.points, a.msgs, a.best_single)) = some (11, 2, 7) := by
  have hne' : cfg.promoted.isEmpty = false := isEmpty_false_of_ne_nil hne
  refine ⟨?_, ?_, ?_⟩
  · intro k a h
    exact by_author_group_props cfg.promoted k a h
  · rw [ladder_top_joueur, if_neg (by simp [hne'])]
    refine ⟨_, rfl, rfl, ?_⟩
    have hp : (py_sort authorKeyLe (by_author cfg.promoted)).Pairwise
        (fun a b => authorKeyLe a b = true) :=
      pairwise_py_sort authorKeyLe_trans authorKeyLe_total _
    exact hp.sublist (pySliceTo_sublist _ _)
  · decide

/-- C4 witness: the two-entry same-author sample. -/
theorem c4_top_authors_witness :
    cfgC4.promoted ≠ [] ∧
    (dget (by_author cfgC4.promoted) (.byId 42)).map
      (fun a => (a.points, a.msgs, a.best_single)) = some (11, 2, 7) :=
  ⟨by decide, (c4_top_authors cfgC4 10 (by decide)).2.2⟩

end LadderBot
